import Mathlib

/-!
Verification of the UAPMP authentication core (backend/routes/auth.js together
with backend/constants/universities.js and backend/models/User.js).

The development shallowly embeds:
- the university directory (`Universities`, `lookupDomain`, `lookupSub`);
- the email resolver (`parseEmail` models the regular expression of the route,
  `extractUserDataFromEmail` the function of the same name);
- the password policy (`validatePasswordStrength`);
- the request handlers as state-transformers over a list of accounts
  (`register`, `verifyEmailPost`, `verifyEmailGet`, `login`), with the
  external collaborators (password hasher, password comparison, the
  insert/delete outcomes of the store, the mail dispatch outcome) passed
  in as parameters.

Machine timestamps are modelled as natural-number milliseconds; the 24-hour
age comparison is computed over the integers, as JavaScript arithmetic on
`Date.now() - createdAt` is.
-/

deriving instance DecidableEq for Except

namespace UAPMP

/-! ## Directory (backend/constants/universities.js) -/

/-- One university entry in the directory: display name plus the mapping
from faculty subdomain token to faculty display name. -/
structure UniversityData where
  name : String
  subdomains : List (String × String)
deriving DecidableEq

/-- The faculty table of Cairo University, transcribed from
backend/constants/universities.js. -/
def cairoSubdomains : List (String × String) :=
  [ ("sca", "Faculty of Arts"),
    ("sci", "Faculty of Science"),
    ("eng", "Faculty of Engineering"),
    ("med", "Faculty of Medicine"),
    ("dentistry", "Faculty of Dentistry"),
    ("pharma", "Faculty of Pharmacy"),
    ("law", "Faculty of Law"),
    ("foc", "Faculty of Commerce"),
    ("edu", "Faculty of Education"),
    ("agr", "Faculty of Agriculture"),
    ("vet", "Faculty of Veterinary Medicine"),
    ("pt", "Faculty of Physical Therapy"),
    ("fci", "Faculty of Computers & AI"),
    ("nursing", "Faculty of Nursing"),
    ("masscomm", "Faculty of Mass Communication"),
    ("feps", "Faculty of Economics & Political Science"),
    ("dar", "Faculty of Dar Al‑Ulum"),
    ("arch", "Faculty of Archaeology"),
    ("rup", "Faculty of Regional & Urban Planning") ]

/-- The directory entry of Cairo University. -/
def cairoUniversity : UniversityData :=
  { name := "Cairo University", subdomains := cairoSubdomains }

/-- The directory: domain key to university entry. The configuration file
contains exactly one university. -/
def Universities : List (String × UniversityData) :=
  [ ("cu.edu.eg", cairoUniversity) ]

/-- The lookup `Universities[domain]` of the route code. -/
def lookupDomain (domain : String) : Option UniversityData :=
  (Universities.find? (fun p => p.1 == domain)).map (fun p => p.2)

/-- The lookup `universityData.subdomains[subdomain]` of the route code. -/
def lookupSub (u : UniversityData) (subdomain : String) : Option String :=
  (u.subdomains.find? (fun p => p.1 == subdomain)).map (fun p => p.2)

/-! ## Email shape (the regular expression of the route) -/

/-- A character of the class `[a-zA-Z0-9._%+-]` used for the local part. -/
def isLocalChar (c : Char) : Bool :=
  c.isAlpha || c.isDigit || c == '.' || c == '_' || c == '%' || c == '+' || c == '-'

/-- Split a character list at its first `@`, returning the parts before and
after it; `none` when no `@` occurs. -/
def splitAtFirstAt : List Char → Option (List Char × List Char)
  | [] => none
  | c :: cs =>
    if c == '@' then some ([], cs)
    else
      match splitAtFirstAt cs with
      | none => none
      | some (l, r) => some (c :: l, r)

/-- The capture groups of a successful match of the pattern of the route, with the
subdomain and domain already folded to lowercase as the route code does. -/
structure ParsedEmail where
  localPart : String
  isStudent : Bool
  subdomain : String
  domain : String
deriving DecidableEq

/-- Model of matching the email against
the pattern of a local part, an `@`, an optional case-insensitive `std.`
marker, a dot-free faculty subdomain, a dot, and the literal domain
`cu.edu.eg` compared case-insensitively, anchored at both ends. The optional
marker is taken greedily, exactly as the backtracking of the regular expression
resolves it. -/
def parseEmail (email : String) : Option ParsedEmail :=
  match splitAtFirstAt email.toList with
  | none => none
  | some (localChars, rest) =>
    if localChars ≠ [] ∧ localChars.all isLocalChar then
      let n := rest.length
      let domChars := rest.drop (n - 9)
      let mid := rest.take (n - 10)
      if (domChars.map Char.toLower = "cu.edu.eg".toList) ∧
          ((rest.drop (n - 10)).take 1 = ['.']) then
        if 4 < mid.length ∧ (mid.take 4).map Char.toLower = "std.".toList ∧
            (mid.drop 4).all (fun c => c != '.') then
          some { localPart := String.mk localChars, isStudent := true,
                 subdomain := String.mk ((mid.drop 4).map Char.toLower),
                 domain := String.mk (domChars.map Char.toLower) }
        else if mid ≠ [] ∧ mid.all (fun c => c != '.') then
          some { localPart := String.mk localChars, isStudent := false,
                 subdomain := String.mk (mid.map Char.toLower),
                 domain := String.mk (domChars.map Char.toLower) }
        else none
      else none
    else none

/-- Split a character list at its first `.`, returning the parts before and
after it; `none` when no `.` occurs. -/
def splitAtFirstDot : List Char → Option (List Char × List Char)
  | [] => none
  | c :: cs =>
    if c == '.' then some ([], cs)
    else
      match splitAtFirstDot cs with
      | none => none
      | some (l, r) => some (c :: l, r)

/-- The email shape as the specification describes it in words: a local part,
an `@`, an optional `std.` marker, a dot-free subdomain, a dot, and an
arbitrary nonempty domain (not pinned to any particular university domain).
Written from step 1 of the specification for comparison against `parseEmail`,
which is translated from the code. -/
def specShapeParse (email : String) : Option ParsedEmail :=
  match splitAtFirstAt email.toList with
  | none => none
  | some (localChars, rest) =>
    if localChars ≠ [] ∧ localChars.all isLocalChar then
      let afterStd :=
        if (rest.take 4).map Char.toLower = "std.".toList then (true, rest.drop 4)
        else (false, rest)
      match splitAtFirstDot afterStd.2 with
      | none => none
      | some (subChars, domChars) =>
        if subChars ≠ [] ∧ domChars ≠ [] then
          some { localPart := String.mk localChars, isStudent := afterStd.1,
                 subdomain := String.mk (subChars.map Char.toLower),
                 domain := String.mk (domChars.map Char.toLower) }
        else none
    else none

/-! ## Email resolver (extractUserDataFromEmail) -/

/-- The typed failures of the resolver; each corresponds to one of the
distinct `throw new Error(...)` messages in `extractUserDataFromEmail`. -/
inductive ResolveError where
  | MalformedEmail : ResolveError
  | UnsupportedUniversity : String → ResolveError
  | UnsupportedFaculty : String → String → ResolveError
  | MalformedStudentLocalPart : ResolveError
deriving DecidableEq

/-- The successful result of the resolver. -/
structure EmailData where
  university : String
  faculty : String
  role : String
  studentId : Option String
deriving DecidableEq

/-- The test `/^\d{k}$/` on the local part: exactly `k` characters, all
decimal digits. -/
def isDigitsOfLength (k : Nat) (s : String) : Bool :=
  s.toList.length == k && s.toList.all Char.isDigit

/-- The own property names of `Object.prototype` that are entirely
lowercase. The resolver folds the subdomain to lowercase before the property
access `universityData.subdomains[subdomain]`, and a plain object literal
inherits `Object.prototype`, so exactly these two unlisted keys are still
found by the access — as truthy non-string objects (the `Object` function
and `Object.prototype` itself). Every other inherited property name
(hasOwnProperty, toString, valueOf, __defineGetter__, ...) contains an
uppercase letter and is unreachable after the fold. -/
def inheritedLowercaseObjectProps : List String := ["constructor", "__proto__"]

/-- Stand-in string for the truthy non-string object that the property
access yields for an inherited key. The program carries the object itself
onward; a string-typed model cannot, so the value is marked opaquely. No
theorem relies on this token beyond the fact that the access was truthy and
the resolver therefore did not fail. -/
def inheritedObjectValue (key : String) : String :=
  "[inherited object " ++ key ++ "]"

/-- The JavaScript property access `universityData.subdomains[subdomain]` as
the following `if (!faculty)` truthiness test sees it: an own key of the
faculty table, or one of the lowercase inherited `Object.prototype`
properties (truthy, represented by `inheritedObjectValue`); `none` exactly
when the access yields `undefined` and the code throws. -/
def jsLookupSub (u : UniversityData) (subdomain : String) : Option String :=
  match lookupSub u subdomain with
  | some fac => some fac
  | none =>
    if inheritedLowercaseObjectProps.contains subdomain then
      some (inheritedObjectValue subdomain)
    else none

/-- `extractUserDataFromEmail` of backend/routes/auth.js: match the pattern,
resolve the domain and faculty against the directory, then derive the student
id from the local part when the student marker is present (9-digit new format
takes the 7 digits from index 2; 7-digit legacy format is used verbatim).
The faculty step uses `jsLookupSub`, the property-access semantics of the
code, so the two inherited lowercase keys do not fail. -/
def extractUserDataFromEmail (email : String) : Except ResolveError EmailData :=
  match parseEmail email with
  | none => .error .MalformedEmail
  | some pr =>
    match lookupDomain pr.domain with
    | none => .error (.UnsupportedUniversity pr.domain)
    | some universityData =>
      match jsLookupSub universityData pr.subdomain with
      | none => .error (.UnsupportedFaculty pr.subdomain universityData.name)
      | some faculty =>
        if pr.isStudent then
          if isDigitsOfLength 9 pr.localPart then
            .ok { university := universityData.name, faculty := faculty,
                  role := "student",
                  studentId := some (String.mk ((pr.localPart.toList.drop 2).take 7)) }
          else if isDigitsOfLength 7 pr.localPart then
            .ok { university := universityData.name, faculty := faculty,
                  role := "student", studentId := some pr.localPart }
          else .error .MalformedStudentLocalPart
        else
          .ok { university := universityData.name, faculty := faculty,
                role := "instructor", studentId := none }

/-! ## Password policy (validatePasswordStrength) -/

/-- The itemized requirement report returned by `validatePasswordStrength`. -/
structure PasswordRequirements where
  length : Bool
  hasLetter : Bool
  hasDigit : Bool
  hasSpecial : Bool
deriving DecidableEq

/-- The fixed symbol set of the special-character class of the route. The two
brace characters are written by code point. -/
def specialChars : List Char :=
  [ '!', '@', '#', '$', '%', '^', '&', '*', '(', ')', ',', '.', '?', '\"',
    ':', Char.ofNat 123, Char.ofNat 125, '|', '<', '>' ]

/-- `validatePasswordStrength` of backend/routes/auth.js: the four checks and
their conjunction, returned together with the itemized report. -/
def validatePasswordStrength (password : String) : Bool × PasswordRequirements :=
  let requirements : PasswordRequirements :=
    { length := decide (6 ≤ password.length),
      hasLetter := password.toList.any Char.isAlpha,
      hasDigit := password.toList.any Char.isDigit,
      hasSpecial := password.toList.any (fun c => specialChars.contains c) }
  let isStrong :=
    requirements.length && requirements.hasLetter &&
      requirements.hasDigit && requirements.hasSpecial
  (isStrong, requirements)

/-! ## Accounts and the store (backend/models/User.js)

The store is modelled as a list of account records; `_id` is an opaque
natural number assigned by the store at insert time and is the primary key of the store,, so distinct records carry distinct ids. -/

/-- A persisted user record, after the schema of backend/models/User.js. -/
structure Account where
  id : Nat
  fullName : String
  email : String
  studentId : Option String
  passwordHash : String
  role : String
  university : String
  college : String
  isEmailVerified : Bool
  createdAt : Nat
deriving DecidableEq

/-- The claims placed in a signed token: `{ id, role, email }`. The signing
primitive itself is an external collaborator, so a token is identified with
its claims. -/
structure TokenClaims where
  id : Nat
  role : String
  email : String
deriving DecidableEq

/-- The user object of the registration and verification success responses:
id, fullName, email, studentId, role, university, college, isEmailVerified. -/
structure RegisterProjection where
  id : Nat
  fullName : String
  email : String
  studentId : Option String
  role : String
  university : String
  college : String
  isEmailVerified : Bool
deriving DecidableEq

/-- The user object of the login response and of the verification redirect
payload: id, fullName, email, role, university, college, studentId. -/
structure LoginProjection where
  id : Nat
  fullName : String
  email : String
  role : String
  university : String
  college : String
  studentId : Option String
deriving DecidableEq

/-- The user object of success response of POST /verify-email: id, fullName,
email, role, university, college, isEmailVerified (no studentId). -/
structure VerifyProjection where
  id : Nat
  fullName : String
  email : String
  role : String
  university : String
  college : String
  isEmailVerified : Bool
deriving DecidableEq

/-- Projection used by the 201 response of POST /register. -/
def registerProjection (u : Account) : RegisterProjection :=
  { id := u.id, fullName := u.fullName, email := u.email,
    studentId := u.studentId, role := u.role, university := u.university,
    college := u.college, isEmailVerified := u.isEmailVerified }

/-- Projection used by the 200 response of POST /login and by the verification
redirect payload. -/
def loginProjection (u : Account) : LoginProjection :=
  { id := u.id, fullName := u.fullName, email := u.email, role := u.role,
    university := u.university, college := u.college, studentId := u.studentId }

/-- Projection used by the 200 response of POST /verify-email. -/
def verifyProjection (u : Account) : VerifyProjection :=
  { id := u.id, fullName := u.fullName, email := u.email, role := u.role,
    university := u.university, college := u.college,
    isEmailVerified := u.isEmailVerified }

/-- The JavaScript method `toLowerCase`, modelled character by character (the
handlers only ever apply it to ASCII email strings). -/
def strToLower (s : String) : String :=
  String.mk (s.toList.map Char.toLower)

/-- The JavaScript method `startsWith`, modelled over the character lists. -/
def strStartsWith (s pre : String) : Bool :=
  pre.toList.isPrefixOf s.toList

/-- The 24-hour window in milliseconds (`maxAgeMs` of the route code). -/
def maxAgeMs : Nat := 24 * 60 * 60 * 1000

/-- The `ageMs > maxAgeMs` test of the route, with `ageMs = now - createdAt`
computed over the integers as JavaScript does. -/
def ageMsGt (now createdAt : Nat) : Bool :=
  decide ((maxAgeMs : Int) < (now : Int) - (createdAt : Int))

/-! ## POST /register -/

/-- The response of the store to the insert attempt (`User.create`): a fresh id,
a duplicate-key conflict naming the offending field (Mongo error 11000), a
schema validation rejection, or any other failure. -/
inductive InsertOutcome where
  | ok : Nat → InsertOutcome
  | duplicateKey : String → InsertOutcome
  | validationFailed : InsertOutcome
  | otherFailure : InsertOutcome
deriving DecidableEq

/-- The outcomes of POST /register, one per response of the handler. -/
inductive RegisterResult where
  | MissingFields : RegisterResult
  | PasswordMismatch : RegisterResult
  | WeakPassword : PasswordRequirements → RegisterResult
  | InvalidEmailFormat : ResolveError → RegisterResult
  | DuplicateEntry : String → RegisterResult
  | ValidationFailed : RegisterResult
  | InternalServerFailure : RegisterResult
  | RegistrationSuccess : RegisterProjection → RegisterResult
deriving DecidableEq

/-- The record POST /register builds and hands to `User.create`: the display
name gains a `Dr. ` title for instructors when absent, the email is the
case-folded one, the student id is attached only for students, and the
account starts unverified with `createdAt = now`. -/
def mkAccount (hash : String → String) (now newId : Nat)
    (fullName emailLower password : String) (ed : EmailData) : Account :=
  { id := newId,
    fullName :=
      if ed.role == "instructor" && !(strStartsWith (strToLower fullName) "dr.") then
        "Dr. " ++ fullName
      else fullName,
    email := emailLower,
    studentId := if ed.role == "student" then ed.studentId else none,
    passwordHash := hash password, role := ed.role,
    university := ed.university, college := ed.faculty,
    isEmailVerified := false, createdAt := now }

/-- POST /register of backend/routes/auth.js. `hash` is the bcrypt
collaborator, `insertRes` the response of the store to the insert, and
`emailSendOk` the verification-mail dispatch outcome; the handler catches a
dispatch failure and only logs it, so `emailSendOk` influences nothing. -/
def register (hash : String → String) (insertRes : InsertOutcome)
    (_emailSendOk : Bool) (now : Nat) (store : List Account)
    (fullName email password confirmPassword : String) :
    RegisterResult × List Account :=
  if fullName = "" ∨ email = "" ∨ password = "" ∨ confirmPassword = "" then
    (.MissingFields, store)
  else if password ≠ confirmPassword then (.PasswordMismatch, store)
  else if !(validatePasswordStrength password).1 then
    (.WeakPassword (validatePasswordStrength password).2, store)
  else
    match extractUserDataFromEmail (strToLower email) with
    | .error e => (.InvalidEmailFormat e, store)
    | .ok ed =>
      match insertRes with
      | .duplicateKey conflictField => (.DuplicateEntry conflictField, store)
      | .validationFailed => (.ValidationFailed, store)
      | .otherFailure => (.InternalServerFailure, store)
      | .ok newId =>
        (.RegistrationSuccess (registerProjection
            (mkAccount hash now newId fullName (strToLower email) password ed)),
         store ++ [mkAccount hash now newId fullName (strToLower email) password ed])

/-! ## POST /verify-email -/

/-- The outcomes of POST /verify-email, one per response of the handler. -/
inductive VerifyResult where
  | MissingUid : VerifyResult
  | InvalidUid : VerifyResult
  | AlreadyVerified : VerifyResult
  | TokenExpiredAccountRemoved : VerifyResult
  | EmailVerifiedSuccess : VerifyProjection → VerifyResult
deriving DecidableEq

/-- POST /verify-email of backend/routes/auth.js. `deleteOk` is the outcome
of the `deleteOne` operation of the store in the expiry branch; the handler catches a delete
failure and only logs it, still answering `TOKEN_EXPIRED_ACCOUNT_REMOVED`. -/
def verifyEmailPost (deleteOk : Bool) (now : Nat) (store : List Account)
    (uid : Option Nat) : VerifyResult × List Account :=
  match uid with
  | none => (.MissingUid, store)
  | some uid =>
    match store.find? (fun a => a.id == uid) with
    | none => (.InvalidUid, store)
    | some user =>
      if user.isEmailVerified then (.AlreadyVerified, store)
      else if ageMsGt now user.createdAt then
        (.TokenExpiredAccountRemoved,
         if deleteOk then store.filter (fun a => !(a.id == uid)) else store)
      else
        (.EmailVerifiedSuccess (verifyProjection { user with isEmailVerified := true }),
         store.map (fun a => if a.id == uid then { a with isEmailVerified := true } else a))

/-! ## GET /verify-email/:uid -/

/-- The outcomes of GET /verify-email/:uid: the 400 error pages, the expiry
page, and the dashboard redirect carrying a fresh token and the user payload
(issued both when the account was just verified and when it already was). -/
inductive VerifyGetResult where
  | InvalidLinkMissingUid : VerifyGetResult
  | InvalidLinkUserNotFound : VerifyGetResult
  | LinkExpiredRemoved : VerifyGetResult
  | RedirectDashboard : TokenClaims → LoginProjection → VerifyGetResult
deriving DecidableEq

/-- The HTTP status the GET handler answers with for each outcome: 400 error
pages, and a redirect (302) for the dashboard case. -/
def verifyGetStatus : VerifyGetResult → Nat
  | .InvalidLinkMissingUid => 400
  | .InvalidLinkUserNotFound => 400
  | .LinkExpiredRemoved => 400
  | .RedirectDashboard _ _ => 302

/-- GET /verify-email/:uid of backend/routes/auth.js. An already-verified
account is sent straight to the dashboard with a fresh token; otherwise the
same expiry/verify logic as the POST handler runs, ending in a redirect. -/
def verifyEmailGet (deleteOk : Bool) (now : Nat) (store : List Account)
    (uid : Option Nat) : VerifyGetResult × List Account :=
  match uid with
  | none => (.InvalidLinkMissingUid, store)
  | some uid =>
    match store.find? (fun a => a.id == uid) with
    | none => (.InvalidLinkUserNotFound, store)
    | some user =>
      if user.isEmailVerified then
        (.RedirectDashboard { id := user.id, role := user.role, email := user.email }
          (loginProjection user), store)
      else if ageMsGt now user.createdAt then
        (.LinkExpiredRemoved,
         if deleteOk then store.filter (fun a => !(a.id == uid)) else store)
      else
        (.RedirectDashboard
          { id := user.id, role := user.role, email := user.email }
          (loginProjection { user with isEmailVerified := true }),
         store.map (fun a => if a.id == uid then { a with isEmailVerified := true } else a))

/-! ## POST /login -/

/-- The outcomes of POST /login, one per response of the handler. -/
inductive LoginResult where
  | MissingFields : LoginResult
  | InvalidCredentials : LoginResult
  | EmailNotVerified : LoginResult
  | LoginSuccess : TokenClaims → LoginProjection → LoginResult
deriving DecidableEq

/-- POST /login of backend/routes/auth.js. `compareOk` is the bcrypt
comparison collaborator applied to the submitted password and the stored
hash. The handler only reads the store; every branch leaves it unchanged. -/
def login (compareOk : String → String → Bool) (store : List Account)
    (email password : String) : LoginResult × List Account :=
  if email = "" ∨ password = "" then (.MissingFields, store)
  else
    match store.find? (fun a => a.email == strToLower email) with
    | none => (.InvalidCredentials, store)
    | some user =>
      if !user.isEmailVerified then (.EmailNotVerified, store)
      else if !(compareOk password user.passwordHash) then (.InvalidCredentials, store)
      else
        (.LoginSuccess { id := user.id, role := user.role, email := user.email }
          (loginProjection user), store)

/-! ## Concrete sample data and helper lemmas -/

/-- A sample stored account that registered at time 0 and has not verified
its email. The toy hashing collaborator used with it stores the plaintext,
so `fun p h => p == h` is the matching comparison collaborator. -/
def pendingAccount : Account :=
  { id := 1, fullName := "Sara Ahmed", email := "1234567@std.sci.cu.edu.eg",
    studentId := some "1234567", passwordHash := "right-password",
    role := "student", university := "Cairo University",
    college := "Faculty of Science", isEmailVerified := false, createdAt := 0 }

/-- The same sample account after email verification. -/
def verifiedAccount : Account :=
  { pendingAccount with isEmailVerified := true }

/-- The output of the resolver for the sample legacy student email. -/
def sampleStudentData : EmailData :=
  { university := "Cairo University", faculty := "Faculty of Science",
    role := "student", studentId := some "1234567" }

lemma find?_filter_ne (store : List Account) (uid : Nat) :
    (store.filter (fun a => !(a.id == uid))).find? (fun a => a.id == uid) = none := by
  induction store with
  | nil => rfl
  | cons a t ih =>
    by_cases h : a.id == uid
    · simp [List.filter_cons, h, ih]
    · simp [List.filter_cons, List.find?_cons, h, ih]

lemma parseEmail_domain_eq {email : String} {pr : ParsedEmail}
    (h : parseEmail email = some pr) : pr.domain = "cu.edu.eg" := by
  unfold parseEmail at h
  cases hs : splitAtFirstAt email.toList with
  | none => rw [hs] at h; exact absurd h (by simp)
  | some p =>
    obtain ⟨localChars, rest⟩ := p
    rw [hs] at h
    dsimp only at h
    split at h
    case isFalse => exact absurd h (by simp)
    case isTrue =>
      split at h
      case isFalse => exact absurd h (by simp)
      case isTrue hdom =>
        split at h
        case isTrue =>
          injection h with h2
          rw [← h2]
          show String.mk _ = _
          rw [hdom.1]
          rfl
        case isFalse =>
          split at h
          case isFalse => exact absurd h (by simp)
          case isTrue =>
            injection h with h2
            rw [← h2]
            show String.mk _ = _
            rw [hdom.1]
            rfl

lemma lookupDomain_cu : lookupDomain "cu.edu.eg" = some cairoUniversity := rfl

/-! ## Claims about the password policy -/

/-- C8: for every password, `meetsPolicy` holds exactly when all four
requirements hold (length at least 6, a letter, a digit, a symbol from the
fixed set), and the itemized per-requirement report is always produced and
reflects each requirement faithfully, also on failure. -/
theorem password_policy_characterization (password : String) :
    ((validatePasswordStrength password).2.length = true ↔ 6 ≤ password.length)
    ∧ ((validatePasswordStrength password).2.hasLetter = true ↔
        ∃ c ∈ password.toList, c.isAlpha = true)
    ∧ ((validatePasswordStrength password).2.hasDigit = true ↔
        ∃ c ∈ password.toList, c.isDigit = true)
    ∧ ((validatePasswordStrength password).2.hasSpecial = true ↔
        ∃ c ∈ password.toList, c ∈ specialChars)
    ∧ ((validatePasswordStrength password).1 = true ↔
        ((validatePasswordStrength password).2.length = true
          ∧ (validatePasswordStrength password).2.hasLetter = true
          ∧ (validatePasswordStrength password).2.hasDigit = true
          ∧ (validatePasswordStrength password).2.hasSpecial = true)) := by
  unfold validatePasswordStrength
  simp [List.any_eq_true, and_assoc]

/-! ## Claims about POST /login -/

/-- C1 counterexample: an existing unverified account queried with a wrong
password does not get `InvalidCredentials` — the handler answers
`EmailNotVerified` before ever comparing the password. -/
theorem login_unverified_wrong_password_not_invalid_credentials :
    (fun p h => p == h) "wrong-password" pendingAccount.passwordHash = false
    ∧ login (fun p h => p == h) [pendingAccount]
        "1234567@std.sci.cu.edu.eg" "wrong-password"
        = (.EmailNotVerified, [pendingAccount])
    ∧ LoginResult.EmailNotVerified ≠ LoginResult.InvalidCredentials := by
  refine ⟨by decide, by decide, by decide⟩

/-- C1 as amended: when no account carries the case-folded email the handler
answers `InvalidCredentials`; when the account exists and is verified but the
password comparison fails it answers the identical `InvalidCredentials`; but
when the account exists and is unverified it answers `EmailNotVerified`
regardless of the password, because the verification check precedes the
password comparison. -/
theorem login_outcome_characterization
    (compareOk : String → String → Bool) (store : List Account)
    (email password : String) (he : email ≠ "") (hp : password ≠ "") :
    (store.find? (fun a => a.email == strToLower email) = none →
      login compareOk store email password = (.InvalidCredentials, store))
    ∧ (∀ u, store.find? (fun a => a.email == strToLower email) = some u →
        u.isEmailVerified = false →
        login compareOk store email password = (.EmailNotVerified, store))
    ∧ (∀ u, store.find? (fun a => a.email == strToLower email) = some u →
        u.isEmailVerified = true → compareOk password u.passwordHash = false →
        login compareOk store email password = (.InvalidCredentials, store)) := by
  unfold login
  rw [if_neg (by simp [he, hp])]
  refine ⟨?_, ?_, ?_⟩
  · intro h; rw [h]
  · intro u h hu; rw [h]; simp [hu]
  · intro u h hu hc; rw [h]; simp [hu, hc]

theorem login_outcome_characterization_witness :
    login (fun p h => p == h) [] "a@b" "pw" = (.InvalidCredentials, []) := by
  exact (login_outcome_characterization (fun p h => p == h) [] "a@b" "pw"
    (by decide) (by decide)).1 rfl

/-- C9: the login handler never mutates the store — its resulting store is
the input store in every branch — and it consults no clock: an unverified
account is answered `EmailNotVerified` however old it is, never purged. -/
theorem login_frame_and_no_lazy_expiry
    (compareOk : String → String → Bool) (store : List Account)
    (email password : String) :
    (login compareOk store email password).2 = store
    ∧ (∀ u, email ≠ "" → password ≠ "" →
        store.find? (fun a => a.email == strToLower email) = some u →
        u.isEmailVerified = false →
        (login compareOk store email password).1 = .EmailNotVerified) := by
  constructor
  · unfold login
    split
    · rfl
    · split
      · rfl
      · split
        · rfl
        · split <;> rfl
  · intro u hne hnp hf hu
    unfold login
    rw [if_neg (by simp [hne, hnp]), hf]
    simp [hu]

theorem login_frame_and_no_lazy_expiry_witness :
    (login (fun p h => p == h) [pendingAccount]
      "1234567@std.sci.cu.edu.eg" "right-password").2 = [pendingAccount]
    ∧ (login (fun p h => p == h) [pendingAccount]
        "1234567@std.sci.cu.edu.eg" "right-password").1 = .EmailNotVerified := by
  have h := login_frame_and_no_lazy_expiry (fun p h => p == h) [pendingAccount]
    "1234567@std.sci.cu.edu.eg" "right-password"
  exact ⟨h.1, h.2 pendingAccount (by decide) (by decide) (by decide) rfl⟩

/-! ## Claims about the verification state machine -/

/-- C3: a Verify call on a still-unverified account strictly older than 24
hours deletes the account and answers `TOKEN_EXPIRED_ACCOUNT_REMOVED`; any
subsequent Verify against that id then fails with the not-found outcome; and
for an age of at most 24 hours the account is instead marked verified and its
public projection returned. -/
theorem verify_expiry_deletes_and_reports
    (now : Nat) (store : List Account) (uid : Nat) (u : Account)
    (hf : store.find? (fun a => a.id == uid) = some u)
    (hu : u.isEmailVerified = false) :
    (ageMsGt now u.createdAt = true →
      verifyEmailPost true now store (some uid)
        = (.TokenExpiredAccountRemoved, store.filter (fun a => !(a.id == uid)))
      ∧ ∀ (deleteOk : Bool) (later : Nat),
          (verifyEmailPost deleteOk later
            (store.filter (fun a => !(a.id == uid))) (some uid)).1 = .InvalidUid)
    ∧ (ageMsGt now u.createdAt = false →
      verifyEmailPost true now store (some uid)
        = (.EmailVerifiedSuccess (verifyProjection { u with isEmailVerified := true }),
           store.map (fun a => if a.id == uid then { a with isEmailVerified := true } else a))) := by
  constructor
  · intro hage
    constructor
    · unfold verifyEmailPost
      dsimp only
      rw [hf]
      simp [hu, hage]
    · intro deleteOk later
      unfold verifyEmailPost
      dsimp only
      rw [find?_filter_ne]
  · intro hage
    unfold verifyEmailPost
    dsimp only
    rw [hf]
    simp [hu, hage]

theorem verify_expiry_deletes_and_reports_witness :
    verifyEmailPost true 86400001 [pendingAccount] (some 1)
      = (.TokenExpiredAccountRemoved, [])
    ∧ (verifyEmailPost true 86400001 [] (some 1)).1 = .InvalidUid := by
  have h := (verify_expiry_deletes_and_reports 86400001 [pendingAccount] 1
    pendingAccount rfl rfl).1 (by decide)
  exact ⟨h.1, h.2 true 86400001⟩

/-- C4 counterexample: the direct-link GET verify handler, called on an
already-verified account (even one far older than 24 hours), does not fail
with an AlreadyVerified signal: it answers with a dashboard redirect (HTTP
302), leaving the store unchanged. -/
theorem get_verify_already_verified_redirects :
    verifyGetStatus (verifyEmailGet true 86400001 [verifiedAccount] (some 1)).1 = 302
    ∧ (verifyEmailGet true 86400001 [verifiedAccount] (some 1)).2 = [verifiedAccount] := by
  exact ⟨by decide, by decide⟩

/-- C4 as amended: a POST Verify on an already-verified account fails with
the distinct `ALREADY_VERIFIED` signal and changes nothing, even past the
24-hour window; the GET direct-link handler instead answers a login redirect,
equally changing nothing; and no Verify call ever reverts a verified flag —
every account present after a POST Verify is verified or was already stored
unchanged. -/
theorem verify_already_verified_no_state_change
    (deleteOk : Bool) (now : Nat) (store : List Account) (uid : Nat) (u : Account)
    (hf : store.find? (fun a => a.id == uid) = some u)
    (hu : u.isEmailVerified = true) :
    verifyEmailPost deleteOk now store (some uid) = (.AlreadyVerified, store)
    ∧ verifyEmailGet deleteOk now store (some uid)
        = (.RedirectDashboard { id := u.id, role := u.role, email := u.email }
            (loginProjection u), store)
    ∧ ∀ (d2 : Bool) (n2 : Nat) (store2 : List Account) (uid2 : Option Nat),
        ∀ a ∈ (verifyEmailPost d2 n2 store2 uid2).2,
          a.isEmailVerified = true ∨ a ∈ store2 := by
  refine ⟨?_, ?_, ?_⟩
  · unfold verifyEmailPost
    dsimp only
    rw [hf]
    simp [hu]
  · unfold verifyEmailGet
    dsimp only
    rw [hf]
    simp [hu]
  · intro d2 n2 store2 uid2 a ha
    match uid2 with
    | none => exact Or.inr ha
    | some i =>
      unfold verifyEmailPost at ha
      dsimp only at ha
      cases hfind : store2.find? (fun b => b.id == i) with
      | none => rw [hfind] at ha; exact Or.inr ha
      | some user =>
        rw [hfind] at ha
        dsimp only at ha
        split at ha
        · exact Or.inr ha
        · split at ha
          · dsimp only at ha
            split at ha
            · exact Or.inr (List.mem_of_mem_filter ha)
            · exact Or.inr ha
          · dsimp only at ha
            obtain ⟨b, hb, hab⟩ := List.mem_map.mp ha
            by_cases hid : (b.id == i) = true
            · rw [if_pos hid] at hab
              rw [← hab]
              exact Or.inl rfl
            · rw [if_neg hid] at hab
              rw [← hab]
              exact Or.inr hb

theorem verify_already_verified_no_state_change_witness :
    verifyEmailPost true 86400001 [verifiedAccount] (some 1)
      = (.AlreadyVerified, [verifiedAccount]) := by
  exact (verify_already_verified_no_state_change true 86400001 [verifiedAccount]
    1 verifiedAccount rfl rfl).1

/-- C10: in the expiry branch a failing store delete is caught and only
logged — both verify handlers still answer their link-expired outcome while
the expired unverified account remains in the store. -/
theorem verify_delete_failure_swallowed
    (now : Nat) (store : List Account) (uid : Nat) (u : Account)
    (hf : store.find? (fun a => a.id == uid) = some u)
    (hu : u.isEmailVerified = false)
    (hage : ageMsGt now u.createdAt = true) :
    verifyEmailPost false now store (some uid) = (.TokenExpiredAccountRemoved, store)
    ∧ verifyEmailGet false now store (some uid) = (.LinkExpiredRemoved, store) := by
  constructor
  · unfold verifyEmailPost
    dsimp only
    rw [hf]
    simp [hu, hage]
  · unfold verifyEmailGet
    dsimp only
    rw [hf]
    simp [hu, hage]

theorem verify_delete_failure_swallowed_witness :
    verifyEmailPost false 86400001 [pendingAccount] (some 1)
      = (.TokenExpiredAccountRemoved, [pendingAccount])
    ∧ verifyEmailGet false 86400001 [pendingAccount] (some 1)
      = (.LinkExpiredRemoved, [pendingAccount]) := by
  exact verify_delete_failure_swallowed 86400001 [pendingAccount] 1 pendingAccount
    rfl rfl (by decide)

/-! ## Claims about POST /register -/

/-- C6: when every local validation passes and the insert at the store then
rejects with a duplicate-key conflict, registration answers
`DUPLICATE_ENTRY` carrying the name of the conflicting field, leaves the store
unchanged, and never surfaces the conflict as the internal-error outcome. -/
theorem duplicate_key_remapped
    (hash : String → String) (conflictField : String) (sendOk : Bool)
    (now : Nat) (store : List Account)
    (fullName email password : String) (ed : EmailData)
    (hn : fullName ≠ "") (he : email ≠ "") (hp : password ≠ "")
    (hstrong : (validatePasswordStrength password).1 = true)
    (hres : extractUserDataFromEmail (strToLower email) = .ok ed) :
    register hash (.duplicateKey conflictField) sendOk now store
        fullName email password password
      = (.DuplicateEntry conflictField, store)
    ∧ RegisterResult.DuplicateEntry conflictField ≠ .InternalServerFailure := by
  constructor
  · unfold register
    rw [if_neg (by simp [hn, he, hp]), if_neg (by simp), if_neg (by simp [hstrong]), hres]
  · simp

theorem duplicate_key_remapped_witness :
    register (fun s => s) (.duplicateKey "email") true 0 []
        "Ali Hassan" "1234567@std.sci.cu.edu.eg" "abc123!" "abc123!"
      = (.DuplicateEntry "email", []) := by
  exact (duplicate_key_remapped (fun s => s) "email" true 0 []
    "Ali Hassan" "1234567@std.sci.cu.edu.eg" "abc123!" sampleStudentData
    (by decide) (by decide) (by decide) (by decide) (by decide)).1

/-- C7: when every validation passes and the insert at the store succeeds, the
outcome of the verification-mail dispatch changes nothing — for either
dispatch outcome registration answers the creation success carrying the
projection of the new account, and the account is appended to the store. -/
theorem email_dispatch_failure_irrelevant
    (hash : String → String) (newId now : Nat) (store : List Account)
    (fullName email password : String) (ed : EmailData)
    (hn : fullName ≠ "") (he : email ≠ "") (hp : password ≠ "")
    (hstrong : (validatePasswordStrength password).1 = true)
    (hres : extractUserDataFromEmail (strToLower email) = .ok ed) :
    (∀ sendOk : Bool,
      register hash (.ok newId) sendOk now store fullName email password password
        = (.RegistrationSuccess (registerProjection
            (mkAccount hash now newId fullName (strToLower email) password ed)),
           store ++ [mkAccount hash now newId fullName (strToLower email) password ed]))
    ∧ register hash (.ok newId) true now store fullName email password password
        = register hash (.ok newId) false now store fullName email password password := by
  have hreg : ∀ sendOk : Bool,
      register hash (.ok newId) sendOk now store fullName email password password
        = (.RegistrationSuccess (registerProjection
            (mkAccount hash now newId fullName (strToLower email) password ed)),
           store ++ [mkAccount hash now newId fullName (strToLower email) password ed]) := by
    intro sendOk
    unfold register
    rw [if_neg (by simp [hn, he, hp]), if_neg (by simp), if_neg (by simp [hstrong]), hres]
  exact ⟨hreg, by rw [hreg true, hreg false]⟩

theorem email_dispatch_failure_irrelevant_witness :
    register (fun s => s) (.ok 7) true 0 []
        "Ali Hassan" "1234567@std.sci.cu.edu.eg" "abc123!" "abc123!"
      = register (fun s => s) (.ok 7) false 0 []
        "Ali Hassan" "1234567@std.sci.cu.edu.eg" "abc123!" "abc123!" := by
  exact (email_dispatch_failure_irrelevant (fun s => s) 7 0 []
    "Ali Hassan" "1234567@std.sci.cu.edu.eg" "abc123!" sampleStudentData
    (by decide) (by decide) (by decide) (by decide) (by decide)).2

/-! ## Claims about the email resolver -/

/-- C2 counterexample: an email of well-formed overall shape (per the
generic shape written from the specification) whose domain is not a Directory key is
rejected by the resolver as `MalformedEmail`, not as
`UnsupportedUniversity`, because the pattern in the code itself pins the domain
to `cu.edu.eg`. -/
theorem unknown_domain_rejected_as_malformed :
    specShapeParse "john@sci.aucegypt.edu"
      = some { localPart := "john", isStudent := false,
               subdomain := "sci", domain := "aucegypt.edu" }
    ∧ lookupDomain "aucegypt.edu" = none
    ∧ extractUserDataFromEmail "john@sci.aucegypt.edu" = .error .MalformedEmail
    ∧ ResolveError.MalformedEmail ≠ .UnsupportedUniversity "aucegypt.edu" := by
  refine ⟨by decide, by decide, by decide, by decide⟩

/-- C2 as amended: the resolver never fails with `UnsupportedUniversity` —
every email passing the shape check of the code already has the Directory key
`cu.edu.eg` as its domain; an email of accepted shape whose lower-cased
faculty subdomain is neither listed under that domain nor one of the two
lowercase inherited `Object.prototype` property names fails with
`UnsupportedFaculty`; for those two inherited names (`constructor` and
`__proto__`) the property access finds a truthy inherited object and the
resolver never reports `UnsupportedFaculty`; and the three failure forms are
pairwise distinguishable. -/
theorem resolver_domain_and_faculty_failures (email : String) :
    (∀ d, extractUserDataFromEmail email ≠ .error (.UnsupportedUniversity d))
    ∧ (∀ pr, parseEmail email = some pr →
        pr.domain = "cu.edu.eg" ∧ lookupDomain pr.domain = some cairoUniversity)
    ∧ (∀ pr, parseEmail email = some pr →
        lookupSub cairoUniversity pr.subdomain = none →
        inheritedLowercaseObjectProps.contains pr.subdomain = false →
        extractUserDataFromEmail email
          = .error (.UnsupportedFaculty pr.subdomain cairoUniversity.name))
    ∧ (∀ pr, parseEmail email = some pr →
        inheritedLowercaseObjectProps.contains pr.subdomain = true →
        ∀ s n, extractUserDataFromEmail email ≠ .error (.UnsupportedFaculty s n))
    ∧ (∀ d s n, ResolveError.MalformedEmail ≠ .UnsupportedUniversity d
        ∧ ResolveError.MalformedEmail ≠ .UnsupportedFaculty s n
        ∧ ResolveError.UnsupportedUniversity d ≠ .UnsupportedFaculty s n) := by
  refine ⟨?_, ?_, ?_, ?_, ?_⟩
  · intro d
    cases hp : parseEmail email with
    | none =>
      unfold extractUserDataFromEmail
      rw [hp]
      simp
    | some pr =>
      unfold extractUserDataFromEmail
      rw [hp]
      dsimp only
      rw [parseEmail_domain_eq hp, lookupDomain_cu]
      dsimp only
      cases hsub : jsLookupSub cairoUniversity pr.subdomain with
      | none => simp
      | some fac =>
        dsimp only
        split
        · split
          · simp
          · split
            · simp
            · simp
        · simp
  · intro pr hp
    exact ⟨parseEmail_domain_eq hp, by rw [parseEmail_domain_eq hp, lookupDomain_cu]⟩
  · intro pr hp hsub hinh
    have hmem : pr.subdomain ∉ inheritedLowercaseObjectProps := by simpa using hinh
    have hjs : jsLookupSub cairoUniversity pr.subdomain = none := by
      unfold jsLookupSub
      rw [hsub]
      simp [hmem]
    unfold extractUserDataFromEmail
    rw [hp]
    dsimp only
    rw [parseEmail_domain_eq hp, lookupDomain_cu]
    dsimp only
    rw [hjs]
  · intro pr hp hinh s n
    unfold extractUserDataFromEmail
    rw [hp]
    dsimp only
    rw [parseEmail_domain_eq hp, lookupDomain_cu]
    dsimp only
    have hjs : ∃ v, jsLookupSub cairoUniversity pr.subdomain = some v := by
      unfold jsLookupSub
      cases hsub : lookupSub cairoUniversity pr.subdomain with
      | none =>
        have hmem : pr.subdomain ∈ inheritedLowercaseObjectProps := by simpa using hinh
        exact ⟨inheritedObjectValue pr.subdomain, by simp [hmem]⟩
      | some fac => exact ⟨fac, rfl⟩
    obtain ⟨v, hv⟩ := hjs
    rw [hv]
    dsimp only
    split
    · split
      · simp
      · split
        · simp
        · simp
    · simp
  · intro d s n
    refine ⟨by simp, by simp, by simp⟩

theorem resolver_domain_and_faculty_failures_witness :
    extractUserDataFromEmail "x@foo.cu.edu.eg"
      = .error (.UnsupportedFaculty "foo" "Cairo University")
    ∧ extractUserDataFromEmail "x@constructor.cu.edu.eg"
      ≠ .error (.UnsupportedFaculty "constructor" "Cairo University") := by
  constructor
  · exact (resolver_domain_and_faculty_failures "x@foo.cu.edu.eg").2.2.1
      { localPart := "x", isStudent := false, subdomain := "foo",
        domain := "cu.edu.eg" }
      (by decide) (by decide) (by decide)
  · exact (resolver_domain_and_faculty_failures "x@constructor.cu.edu.eg").2.2.2.1
      { localPart := "x", isStudent := false, subdomain := "constructor",
        domain := "cu.edu.eg" }
      (by decide) (by decide) "constructor" "Cairo University"

/-- C5: for a student-marked email whose subdomain and domain resolve, the
student id is the 7 characters from index 2 of a 9-digit local part, the
local part itself when it has exactly 7 digits, and otherwise the resolver
fails with the malformed-student-prefix error. -/
theorem student_id_extraction_rule
    (email : String) (pr : ParsedEmail) (faculty : String)
    (hpr : parseEmail email = some pr) (hstud : pr.isStudent = true)
    (hfac : lookupSub cairoUniversity pr.subdomain = some faculty) :
    extractUserDataFromEmail email =
      (if isDigitsOfLength 9 pr.localPart then
        .ok { university := cairoUniversity.name, faculty := faculty,
              role := "student",
              studentId := some (String.mk ((pr.localPart.toList.drop 2).take 7)) }
       else if isDigitsOfLength 7 pr.localPart then
        .ok { university := cairoUniversity.name, faculty := faculty,
              role := "student", studentId := some pr.localPart }
       else .error .MalformedStudentLocalPart) := by
  have hjs : jsLookupSub cairoUniversity pr.subdomain = some faculty := by
    unfold jsLookupSub
    rw [hfac]
  unfold extractUserDataFromEmail
  rw [hpr]
  dsimp only
  rw [parseEmail_domain_eq hpr, lookupDomain_cu]
  dsimp only
  rw [hjs]
  dsimp only
  rw [hstud]
  simp

theorem student_id_extraction_rule_witness :
    extractUserDataFromEmail "123456789@std.sci.cu.edu.eg"
      = .ok { university := "Cairo University", faculty := "Faculty of Science",
              role := "student", studentId := some "3456789" } := by
  have h := student_id_extraction_rule "123456789@std.sci.cu.edu.eg"
    { localPart := "123456789", isStudent := true, subdomain := "sci",
      domain := "cu.edu.eg" }
    "Faculty of Science" (by decide) rfl (by decide)
  rw [h]
  decide

end UAPMP
